import Mathlib

/-!
# Selectra heuristic interview-scoring engine: a verification development

Shallow embedding of the scoring core of `app.py` (signal extraction,
four dimension scorers, explanation and suggestion generation, and the
cross-answer aggregation engine), together with proofs of the stated
behavioural properties.

Numbers that Python holds as floats are modelled as exact rationals
(`ℚ`); Python's built-in `round` (round-half-to-even) is modelled by
`pyRound` below.  Strings are modelled by `String` / `List Char` with
ASCII case folding.
-/

namespace Selectra

/-- Python's built-in `round` to an integer: round half to even
(banker's rounding), modelled exactly on `ℚ`. -/
def pyRound (x : ℚ) : ℤ :=
  if x - ⌊x⌋ < 1/2 then ⌊x⌋
  else if 1/2 < x - ⌊x⌋ then ⌊x⌋ + 1
  else if ⌊x⌋ % 2 = 0 then ⌊x⌋ else ⌊x⌋ + 1

/-- Python's `round(x, 1)` on `ℚ`. -/
def roundTo1 (x : ℚ) : ℚ := (pyRound (x * 10) : ℚ) / 10

/-- Python's `round(x, 2)` on `ℚ`. -/
def roundTo2 (x : ℚ) : ℚ := (pyRound (x * 100) : ℚ) / 100

theorem pyRound_nonneg (x : ℚ) (hx : 0 ≤ x) : 0 ≤ pyRound x := by
  have hf : (0 : ℤ) ≤ ⌊x⌋ := Int.floor_nonneg.mpr hx
  unfold pyRound
  split_ifs <;> omega

theorem pyRound_le_of_le (x : ℚ) (n : ℤ) (hx : x ≤ (n : ℚ)) : pyRound x ≤ n := by
  have hf : ⌊x⌋ ≤ n := by
    have := Int.floor_le_floor hx
    simpa using this
  unfold pyRound
  split_ifs with h1 h2 h3
  · exact hf
  · -- here 1/2 ≤ x - ⌊x⌋, so ⌊x⌋ < n
    push_neg at h1
    have hlt : (⌊x⌋ : ℚ) < (n : ℚ) := by
      have hfl : (⌊x⌋ : ℚ) ≤ x := Int.floor_le x
      linarith
    have : ⌊x⌋ < n := by exact_mod_cast hlt
    omega
  · exact hf
  · push_neg at h1
    have hlt : (⌊x⌋ : ℚ) < (n : ℚ) := by
      have hfl : (⌊x⌋ : ℚ) ≤ x := Int.floor_le x
      linarith
    have : ⌊x⌋ < n := by exact_mod_cast hlt
    omega

theorem roundTo1_nonneg (x : ℚ) (hx : 0 ≤ x) : 0 ≤ roundTo1 x := by
  unfold roundTo1
  have h : (0 : ℤ) ≤ pyRound (x * 10) := pyRound_nonneg _ (by linarith)
  have h' : (0 : ℚ) ≤ (pyRound (x * 10) : ℚ) := by exact_mod_cast h
  linarith

theorem roundTo1_le_ten (x : ℚ) (hx : x ≤ 10) : roundTo1 x ≤ 10 := by
  unfold roundTo1
  have h : pyRound (x * 10) ≤ (100 : ℤ) := pyRound_le_of_le _ 100 (by push_cast; linarith)
  have h' : (pyRound (x * 10) : ℚ) ≤ 100 := by exact_mod_cast h
  linarith

/-- A rational that is an exact multiple of one tenth, i.e. "rounded to
one decimal place". -/
def isTenth (q : ℚ) : Prop := ∃ n : ℤ, q = (n : ℚ) / 10

theorem isTenth_roundTo1 (x : ℚ) : isTenth (roundTo1 x) := ⟨pyRound (x * 10), rfl⟩

/-! ## String helpers (ASCII model of the Python string operations) -/

/-- A regex word character (`\w`): letter, digit or underscore (ASCII model). -/
def isWordChar (c : Char) : Bool := c.isAlphanum || c == '_'

/-- Word-character test on an optional character; out-of-range positions
count as non-word. -/
def wordOpt : Option Char → Bool
  | none => false
  | some c => isWordChar c

/-- A regex word boundary (`\b`) holds between two (optional) characters
iff exactly one of them is a word character. -/
def boundaryB (a b : Option Char) : Bool := wordOpt a != wordOpt b

/-- Does the pattern `\b pat \b` match at the current position?  `prev` is
the character just before the position (`none` at the start of the text),
`rest` is the text from the position on. -/
def matchesAt (pat : List Char) (prev : Option Char) (rest : List Char) : Bool :=
  boundaryB prev rest.head? && pat.isPrefixOf rest &&
    boundaryB pat.getLast? ((rest.drop pat.length).head?)

/-- Number of matches of `\b pat \b` found by a left-to-right,
non-overlapping scan (the semantics of `re.findall`). -/
def countOcc (pat : List Char) : Option Char → List Char → Nat
  | _, [] => 0
  | prev, c :: t =>
    if matchesAt pat prev (c :: t) && !pat.isEmpty then
      1 + countOcc pat pat.getLast? (t.drop (pat.length - 1))
    else
      countOcc pat (some c) t
termination_by _ s => s.length
decreasing_by
  all_goals (try simp_wf)
  all_goals omega

/-- Is `n` a contiguous sublist of the argument (Python's `in` on strings)? -/
def containsSub (n : List Char) : List Char → Bool
  | [] => n.isEmpty
  | c :: t => n.isPrefixOf (c :: t) || containsSub n t

/-- Split a character list at every character satisfying `p`; the
delimiters are dropped and empty segments are kept (to be filtered by the
caller, as the source does). -/
def splitOnP (p : Char → Bool) : List Char → List (List Char)
  | [] => [[]]
  | c :: t =>
    if p c then [] :: splitOnP p t
    else
      match splitOnP p t with
      | [] => [[c]]
      | s :: rest => (c :: s) :: rest

/-- Python's `str.strip()`: drop leading and trailing whitespace. -/
def stripChars (l : List Char) : List Char :=
  ((l.dropWhile Char.isWhitespace).reverse.dropWhile Char.isWhitespace).reverse

/-! ## Fixed phrase tables (configuration data of the rubric) -/

/-- Filler / hesitation words (used for Confidence scoring). -/
def FILLER_WORDS : List String :=
  ["maybe", "perhaps", "i think", "i guess", "not sure", "possibly",
   "kind of", "sort of", "basically", "um", "uh", "probably",
   "i don\x27t know", "might", "could be", "not really", "unsure",
   "i suppose", "honestly", "actually"]

/-- Assertive phrases (boost Confidence). -/
def ASSERTIVE_PHRASES : List String :=
  ["i am confident", "i believe", "i know", "i have", "i can",
   "i will", "i achieved", "i successfully", "definitely",
   "certainly", "clearly"]

/-- Example indicator phrases. -/
def EXAMPLE_PHRASES : List String :=
  ["for example", "for instance", "such as", "specifically",
   "in particular", "like when", "one time"]

/-! ## Data model -/

/-- An interview question of the fixed question bank. -/
structure QuestionSpec where
  id : Nat
  text : String
  keywords : List String
  category : String
deriving DecidableEq, Repr

/-- The measurable signals extracted from one answer
(the dictionary returned by `detect_signals`). -/
structure Signals where
  wordCount : Nat
  sentenceCount : Nat
  uniqueRatio : ℚ
  matchedKeywords : List String
  totalKeywords : Nat
  keywordMatchRatio : ℚ
  fillerWordsFound : List String
  fillerCount : Nat
  assertiveFound : List String
  hasExamples : Bool
  startsWithCapital : Bool
  avgSentenceLen : ℤ
  realWordRatio : ℚ
  isGibberish : Bool
deriving DecidableEq, Repr

/-- The filler-detection loop of `detect_signals`: for each filler phrase
in order, count its whole-word occurrences; accumulate the total count and
the phrases found. -/
def fillerLoop (la : List Char) : List String → Nat × List String
  | [] => (0, [])
  | f :: rest =>
    let n := countOcc f.toList none la
    let r := fillerLoop la rest
    if 0 < n then (n + r.1, f :: r.2) else r

/-- `detect_signals(answer, question)`: extract all measurable signals
from an answer. -/
def detect_signals (answer : String) (question : QuestionSpec) : Signals :=
  let chars := answer.toList
  let lower_answer := chars.map Char.toLower
  let words := (splitOnP Char.isWhitespace chars).filter (fun w => !w.isEmpty)
  let word_count := words.length
  let sentences :=
    ((splitOnP (fun c => c == '.' || c == '!' || c == '?') chars).map stripChars).filter
      (fun s => !s.isEmpty)
  let sentence_count := sentences.length
  let unique_words := (words.map (fun w => w.map Char.toLower)).dedup
  let unique_ratio : ℚ :=
    if 0 < word_count then roundTo2 ((unique_words.length : ℚ) / (word_count : ℚ)) else 0
  let matched_keywords :=
    question.keywords.filter (fun kw => containsSub (kw.toList.map Char.toLower) lower_answer)
  let keyword_match_ratio : ℚ :=
    if question.keywords ≠ [] then
      roundTo2 ((matched_keywords.length : ℚ) / (question.keywords.length : ℚ))
    else 0
  let fl := fillerLoop lower_answer FILLER_WORDS
  let assertive_found := ASSERTIVE_PHRASES.filter (fun p => containsSub p.toList lower_answer)
  let has_examples := EXAMPLE_PHRASES.any (fun p => containsSub p.toList lower_answer)
  let starts_with_capital : Bool :=
    match chars with
    | [] => false
    | c :: _ => c == c.toUpper
  let avg_sentence_len : ℤ :=
    if 0 < sentence_count then pyRound ((word_count : ℚ) / (sentence_count : ℚ))
    else (word_count : ℤ)
  let real_words :=
    words.filter (fun w => decide (3 ≤ w.length) && w.any (fun c => "aeiouAEIOU".toList.contains c))
  let real_word_ratio : ℚ :=
    if 0 < word_count then roundTo2 ((real_words.length : ℚ) / (word_count : ℚ)) else 0
  let is_gibberish : Bool :=
    decide (real_word_ratio < 0.4) ||
      (decide (0 < word_count) && decide (keyword_match_ratio = 0) &&
        decide (real_word_ratio < 0.6) && decide (word_count < 15))
  { wordCount := word_count
    sentenceCount := sentence_count
    uniqueRatio := unique_ratio
    matchedKeywords := matched_keywords
    totalKeywords := question.keywords.length
    keywordMatchRatio := keyword_match_ratio
    fillerWordsFound := fl.2
    fillerCount := fl.1
    assertiveFound := assertive_found
    hasExamples := has_examples
    startsWithCapital := starts_with_capital
    avgSentenceLen := avg_sentence_len
    realWordRatio := real_word_ratio
    isGibberish := is_gibberish }

/-! ## Dimension scorers -/

/-- The breakpoint table mapping `keywordMatchRatio` to the accuracy
baseline (the if/elif chain of `score_accuracy`). -/
def accuracy_base (ratio : ℚ) : ℚ :=
  if 0.5 ≤ ratio then 9
  else if 0.35 ≤ ratio then 7.5
  else if 0.25 ≤ ratio then 6
  else if 0.15 ≤ ratio then 4.5
  else if 0.05 ≤ ratio then 3
  else 1.5

/-- `score_clarity(signals)`: sentence structure / readability score. -/
def score_clarity (s : Signals) : ℚ :=
  if s.isGibberish = true then roundTo1 (min 1 (s.realWordRatio * 2))
  else
    roundTo1 (min 10 (max 0
      (5 + (if 3 ≤ s.sentenceCount then 2 else if 2 ≤ s.sentenceCount then 1 else 0)
         + (if 30 ≤ s.wordCount ∧ s.wordCount ≤ 200 then 2
            else if 15 ≤ s.wordCount then 1 else -2)
         + (if s.startsWithCapital = true then 0.5 else 0)
         + (if s.uniqueRatio < 0.4 then -2 else 0))))

/-- `score_accuracy(signals)`: presence of relevant keywords/concepts. -/
def score_accuracy (s : Signals) : ℚ :=
  if s.isGibberish = true then 0
  else
    roundTo1 (min 10 (max 0
      (if 6 ≤ s.matchedKeywords.length then min 10 (accuracy_base s.keywordMatchRatio + 1)
       else accuracy_base s.keywordMatchRatio)))

/-- `score_completeness(signals)`: depth, breadth and use of examples. -/
def score_completeness (s : Signals) : ℚ :=
  if s.isGibberish = true then 0
  else
    roundTo1 (min 10 (max 0
      (3 + (if 80 ≤ s.wordCount then 3 else if 50 ≤ s.wordCount then 2.5
            else if 30 ≤ s.wordCount then 1.5 else if 15 ≤ s.wordCount then 0.5 else -1)
         + (if 5 ≤ s.sentenceCount then 2.5 else if 3 ≤ s.sentenceCount then 1.5
            else if 2 ≤ s.sentenceCount then 0.5 else 0)
         + (if s.hasExamples = true then 0.5 else 0))))

/-- `score_confidence(signals)`: assertiveness and absence of hedging. -/
def score_confidence (s : Signals) : ℚ :=
  if s.isGibberish = true then 0
  else
    roundTo1 (min 10 (max 0
      (5 + (if 40 ≤ s.wordCount then 2 else if 20 ≤ s.wordCount then 1.5
            else if 10 ≤ s.wordCount then 0.5 else -2)
         - min ((s.fillerCount : ℚ) * 0.8) 4
         + min ((s.assertiveFound.length : ℚ) * 0.5) 2
         + (if 0.8 ≤ s.realWordRatio then 0.5 else 0))))

/-- All four dimension scores of one answer. -/
structure Scores where
  clarity : ℚ
  accuracy : ℚ
  completeness : ℚ
  confidence : ℚ
deriving DecidableEq, Repr

/-- `compute_scores(signals)`: all four dimension scores. -/
def compute_scores (s : Signals) : Scores :=
  { clarity := score_clarity s
    accuracy := score_accuracy s
    completeness := score_completeness s
    confidence := score_confidence s }

/-- A `Signals` value is valid when its three ratio fields lie in `[0,1]`
(as every extractor output does). -/
def Signals.Valid (s : Signals) : Prop :=
  0 ≤ s.uniqueRatio ∧ s.uniqueRatio ≤ 1 ∧
    0 ≤ s.keywordMatchRatio ∧ s.keywordMatchRatio ≤ 1 ∧
    0 ≤ s.realWordRatio ∧ s.realWordRatio ≤ 1

instance (s : Signals) : Decidable s.Valid := by
  unfold Signals.Valid
  infer_instance

theorem roundClamp_bounds (v : ℚ) :
    0 ≤ roundTo1 (min 10 (max 0 v)) ∧ roundTo1 (min 10 (max 0 v)) ≤ 10 :=
  ⟨roundTo1_nonneg _ (le_min (by norm_num) (le_max_left 0 v)),
   roundTo1_le_ten _ (min_le_left _ _)⟩

/-- The non-gibberish accuracy score in closed form: the clamp to `[0,10]`
and the rounding to one decimal are both identities on the breakpoint
values. -/
theorem score_accuracy_eq (s : Signals) (hg : s.isGibberish = false) :
    score_accuracy s =
      (if 6 ≤ s.matchedKeywords.length then min 10 (accuracy_base s.keywordMatchRatio + 1)
       else accuracy_base s.keywordMatchRatio) := by
  unfold score_accuracy accuracy_base
  rw [if_neg (by simp [hg])]
  split_ifs <;> norm_num [roundTo1, pyRound]

theorem accuracy_base_mono {r₁ r₂ : ℚ} (h : r₁ ≤ r₂) :
    accuracy_base r₁ ≤ accuracy_base r₂ := by
  unfold accuracy_base
  split_ifs <;> linarith

/-- A concrete gibberish `Signals` value. -/
def gibSignals : Signals :=
  { wordCount := 3, sentenceCount := 1, uniqueRatio := 1, matchedKeywords := []
    totalKeywords := 17, keywordMatchRatio := 0, fillerWordsFound := []
    fillerCount := 0, assertiveFound := [], hasExamples := false
    startsWithCapital := false, avgSentenceLen := 3, realWordRatio := 0.25
    isGibberish := true }

/-- A concrete valid `Signals` value (non-gibberish). -/
def sampleSignals : Signals :=
  { wordCount := 45, sentenceCount := 3, uniqueRatio := 0.8
    matchedKeywords := ["team", "feedback"], totalKeywords := 17
    keywordMatchRatio := 0.12, fillerWordsFound := ["maybe"], fillerCount := 1
    assertiveFound := ["i believe"], hasExamples := true, startsWithCapital := true
    avgSentenceLen := 15, realWordRatio := 0.9, isGibberish := false }

/-- A concrete non-gibberish `Signals` value with ratio 0.3 (2 keywords matched). -/
def accSigA : Signals :=
  { wordCount := 40, sentenceCount := 2, uniqueRatio := 0.7
    matchedKeywords := ["problem", "solution"], totalKeywords := 18
    keywordMatchRatio := 0.3, fillerWordsFound := [], fillerCount := 0
    assertiveFound := [], hasExamples := false, startsWithCapital := true
    avgSentenceLen := 20, realWordRatio := 0.95, isGibberish := false }

/-- A concrete non-gibberish `Signals` value with ratio 0.4 (3 keywords matched). -/
def accSigB : Signals :=
  { wordCount := 40, sentenceCount := 2, uniqueRatio := 0.7
    matchedKeywords := ["problem", "solution", "debug"], totalKeywords := 18
    keywordMatchRatio := 0.4, fillerWordsFound := [], fillerCount := 0
    assertiveFound := [], hasExamples := false, startsWithCapital := true
    avgSentenceLen := 20, realWordRatio := 0.95, isGibberish := false }

/-- C1: whenever `isGibberish` is true, the accuracy, completeness and
confidence scorers return exactly 0.0 and the clarity scorer returns
`round(min(1.0, realWordRatio*2), 1)`, regardless of all other signal
values. -/
theorem C1_gibberish_short_circuit (s : Signals) (h : s.isGibberish = true) :
    score_accuracy s = 0 ∧ score_completeness s = 0 ∧ score_confidence s = 0 ∧
      score_clarity s = roundTo1 (min 1 (s.realWordRatio * 2)) := by
  refine ⟨?_, ?_, ?_, ?_⟩
  · unfold score_accuracy
    rw [if_pos h]
  · unfold score_completeness
    rw [if_pos h]
  · unfold score_confidence
    rw [if_pos h]
  · unfold score_clarity
    rw [if_pos h]

theorem C1_gibberish_short_circuit_witness :
    gibSignals.isGibberish = true ∧
      (score_accuracy gibSignals = 0 ∧ score_completeness gibSignals = 0 ∧
        score_confidence gibSignals = 0 ∧
        score_clarity gibSignals = roundTo1 (min 1 (gibSignals.realWordRatio * 2))) :=
  ⟨rfl, C1_gibberish_short_circuit gibSignals rfl⟩

/-- C2: for every valid `Signals` value, each of the four dimension
scorers returns a number in `[0, 10]` that is an exact multiple of one
tenth (i.e. rounded to one decimal place). -/
theorem C2_scores_in_range (s : Signals) (h : s.Valid) :
    (0 ≤ score_clarity s ∧ score_clarity s ≤ 10 ∧ isTenth (score_clarity s)) ∧
    (0 ≤ score_accuracy s ∧ score_accuracy s ≤ 10 ∧ isTenth (score_accuracy s)) ∧
    (0 ≤ score_completeness s ∧ score_completeness s ≤ 10 ∧ isTenth (score_completeness s)) ∧
    (0 ≤ score_confidence s ∧ score_confidence s ≤ 10 ∧ isTenth (score_confidence s)) := by
  obtain ⟨hu0, hu1, hk0, hk1, hr0, hr1⟩ := h
  refine ⟨?_, ?_, ?_, ?_⟩
  · unfold score_clarity
    by_cases hg : s.isGibberish = true
    · rw [if_pos hg]
      refine ⟨roundTo1_nonneg _ (le_min (by norm_num) (by linarith)), ?_, isTenth_roundTo1 _⟩
      have h1 : min (1 : ℚ) (s.realWordRatio * 2) ≤ 1 := min_le_left _ _
      exact roundTo1_le_ten _ (by linarith)
    · rw [if_neg hg]
      exact ⟨(roundClamp_bounds _).1, (roundClamp_bounds _).2, isTenth_roundTo1 _⟩
  · unfold score_accuracy
    by_cases hg : s.isGibberish = true
    · rw [if_pos hg]
      exact ⟨le_refl 0, by norm_num, ⟨0, by norm_num⟩⟩
    · rw [if_neg hg]
      exact ⟨(roundClamp_bounds _).1, (roundClamp_bounds _).2, isTenth_roundTo1 _⟩
  · unfold score_completeness
    by_cases hg : s.isGibberish = true
    · rw [if_pos hg]
      exact ⟨le_refl 0, by norm_num, ⟨0, by norm_num⟩⟩
    · rw [if_neg hg]
      exact ⟨(roundClamp_bounds _).1, (roundClamp_bounds _).2, isTenth_roundTo1 _⟩
  · unfold score_confidence
    by_cases hg : s.isGibberish = true
    · rw [if_pos hg]
      exact ⟨le_refl 0, by norm_num, ⟨0, by norm_num⟩⟩
    · rw [if_neg hg]
      exact ⟨(roundClamp_bounds _).1, (roundClamp_bounds _).2, isTenth_roundTo1 _⟩

theorem C2_scores_in_range_witness :
    sampleSignals.Valid ∧
      ((0 ≤ score_clarity sampleSignals ∧ score_clarity sampleSignals ≤ 10 ∧
          isTenth (score_clarity sampleSignals)) ∧
       (0 ≤ score_accuracy sampleSignals ∧ score_accuracy sampleSignals ≤ 10 ∧
          isTenth (score_accuracy sampleSignals)) ∧
       (0 ≤ score_completeness sampleSignals ∧ score_completeness sampleSignals ≤ 10 ∧
          isTenth (score_completeness sampleSignals)) ∧
       (0 ≤ score_confidence sampleSignals ∧ score_confidence sampleSignals ≤ 10 ∧
          isTenth (score_confidence sampleSignals))) :=
  ⟨⟨by norm_num [sampleSignals], by norm_num [sampleSignals], by norm_num [sampleSignals],
    by norm_num [sampleSignals], by norm_num [sampleSignals], by norm_num [sampleSignals]⟩,
   C2_scores_in_range sampleSignals
     ⟨by norm_num [sampleSignals], by norm_num [sampleSignals], by norm_num [sampleSignals],
      by norm_num [sampleSignals], by norm_num [sampleSignals], by norm_num [sampleSignals]⟩⟩

/-- C3: for non-gibberish signals, the accuracy score is the fixed
breakpoint table `accuracy_base` applied to `keywordMatchRatio`
(≥0.5→9, ≥0.35→7.5, ≥0.25→6, ≥0.15→4.5, ≥0.05→3, else 1.5), plus a +1
bonus capped at 10 exactly when at least 6 distinct keywords matched;
consequently accuracy is non-decreasing in `keywordMatchRatio` (the bonus
condition held fixed). -/
theorem C3_accuracy_step_function :
    (∀ s : Signals, s.isGibberish = false →
        score_accuracy s =
          (if 6 ≤ s.matchedKeywords.length
           then min 10 (accuracy_base s.keywordMatchRatio + 1)
           else accuracy_base s.keywordMatchRatio)) ∧
    (∀ s t : Signals, s.isGibberish = false → t.isGibberish = false →
        s.keywordMatchRatio ≤ t.keywordMatchRatio →
        ((6 ≤ s.matchedKeywords.length) ↔ (6 ≤ t.matchedKeywords.length)) →
        score_accuracy s ≤ score_accuracy t) := by
  constructor
  · exact score_accuracy_eq
  · intro s t hs ht hr hb
    rw [score_accuracy_eq s hs, score_accuracy_eq t ht]
    have hbase := accuracy_base_mono hr
    by_cases h6 : 6 ≤ s.matchedKeywords.length
    · rw [if_pos h6, if_pos (hb.mp h6)]
      exact min_le_min (le_refl _) (by linarith)
    · rw [if_neg h6, if_neg (fun ht6 => h6 (hb.mpr ht6))]
      exact hbase

theorem C3_accuracy_step_function_witness :
    (accSigA.isGibberish = false ∧ accSigB.isGibberish = false ∧
      accSigA.keywordMatchRatio ≤ accSigB.keywordMatchRatio ∧
      ((6 ≤ accSigA.matchedKeywords.length) ↔ (6 ≤ accSigB.matchedKeywords.length))) ∧
    score_accuracy accSigA =
      (if 6 ≤ accSigA.matchedKeywords.length
       then min 10 (accuracy_base accSigA.keywordMatchRatio + 1)
       else accuracy_base accSigA.keywordMatchRatio) ∧
    score_accuracy accSigA ≤ score_accuracy accSigB :=
  ⟨⟨rfl, rfl, by norm_num [accSigA, accSigB], by decide⟩,
   C3_accuracy_step_function.1 accSigA rfl,
   C3_accuracy_step_function.2 accSigA accSigB rfl rfl
     (by norm_num [accSigA, accSigB]) (by decide)⟩

/-! ## Explanation generation -/

/-- The four rubric dimensions. -/
inductive Dim
  | clarity
  | accuracy
  | completeness
  | confidence
deriving DecidableEq, Repr

/-- Human-readable label of a dimension (the `replace` chain /
`dim_labels` table of the source). -/
def dimLabel : Dim → String
  | .clarity => "Clarity"
  | .accuracy => "Technical Accuracy"
  | .completeness => "Completeness"
  | .confidence => "Confidence"

/-- Python's `sep.join(l)`. -/
def joinSep (sep : String) : List String → String
  | [] => ""
  | [x] => x
  | x :: y :: xs => x ++ sep ++ joinSep sep (y :: xs)

/-- The rationale record returned by `generate_explanation`. -/
structure Explanation where
  dimension : String
  score : ℚ
  text : String
  signalsDetected : List String
deriving DecidableEq, Repr

/-- `generate_explanation(dimension, score, signals)`. -/
def generate_explanation (dimension : Dim) (score : ℚ) (s : Signals) : Explanation :=
  if s.isGibberish = true then
    { dimension := dimLabel dimension
      score := score
      text := "Response appears to be nonsensical or gibberish. Please provide a meaningful answer."
      signalsDetected :=
        ["non-meaningful content detected",
         "only " ++ toString (pyRound (s.realWordRatio * 100)) ++ "% recognizable words"] }
  else
    match dimension with
    | .clarity =>
      { dimension := dimLabel .clarity
        score := score
        text :=
          if 7 ≤ score then "Well-structured response with clear sentence organization."
          else if 4 ≤ score then "Adequate structure. Additional sentences would improve readability."
          else "Response lacks sentence structure or is too brief for clear communication."
        signalsDetected :=
          [toString s.sentenceCount ++ " sentence(s) detected",
           toString s.wordCount ++ " words total"] ++
          (if s.startsWithCapital = true then ["proper capitalization"] else []) ++
          (if s.uniqueRatio < 0.4 then ["high word repetition detected"]
           else if 0.7 < s.uniqueRatio then ["diverse vocabulary"] else []) }
    | .accuracy =>
      { dimension := dimLabel .accuracy
        score := score
        text :=
          if 7 ≤ score then "Strong keyword presence indicates solid understanding of the topic."
          else if 4 ≤ score then "Some relevant concepts present but key terms are missing."
          else "Very few domain-relevant terms detected in the response."
        signalsDetected :=
          [toString s.matchedKeywords.length ++ " of " ++ toString s.totalKeywords ++
            " keywords matched"] ++
          (if s.matchedKeywords ≠ [] then
            ["Found: " ++ (joinSep ", " (s.matchedKeywords.take 5) ++
              (if 5 < s.matchedKeywords.length then "..." else ""))]
           else []) }
    | .completeness =>
      { dimension := dimLabel .completeness
        score := score
        text :=
          if 7 ≤ score then "Thorough response covering multiple facets of the question."
          else if 4 ≤ score then "Covers the basics but could explore the topic further."
          else "Response is too brief or narrow to be considered complete."
        signalsDetected :=
          [toString s.wordCount ++ " words total",
           toString s.sentenceCount ++ " sentence(s)"] ++
          (if s.hasExamples = true then ["includes concrete examples"]
           else ["no specific examples detected"]) }
    | .confidence =>
      { dimension := dimLabel .confidence
        score := score
        text :=
          if 7 ≤ score then "Confident, assertive tone with minimal hesitation."
          else if 4 ≤ score then "Moderate confidence. Some uncertainty phrases dilute the message."
          else "Response suggests significant uncertainty or excessive hedging."
        signalsDetected :=
          (if s.fillerCount = 0 then ["no filler/hesitation words"]
           else [toString s.fillerCount ++ " filler word(s): " ++
             joinSep ", " (s.fillerWordsFound.take 4)]) ++
          (if s.assertiveFound ≠ [] then
            ["assertive phrases: " ++ joinSep ", " (s.assertiveFound.take 3)]
           else ["no assertive phrases detected"]) }

/-! ## Suggestion generation -/

/-- The advice record returned by `generate_suggestion`. -/
structure Suggestion where
  level : String
  text : String
  icon : String
  score : ℚ
  dimension : String
deriving DecidableEq, Repr

/-- `_suggestion_low(dimension, signals)`: low-score suggestions (0-3). -/
def suggestion_low (dimension : Dim) (s : Signals) : String :=
  match dimension with
  | .clarity =>
    if s.wordCount < 15 then
      "Your response is very brief. Aim for at least 3–4 complete sentences with a clear beginning, middle, and conclusion."
    else if s.uniqueRatio < 0.4 then
      "There is noticeable word repetition. Vary your vocabulary and structure thoughts into distinct sentences."
    else
      "Improve clarity by organizing your answer into clear sentences. Start with your main point, support with details, then summarize."
  | .accuracy =>
    if s.matchedKeywords = [] then
      "Your answer did not include key technical terms. Review the topic and incorporate specific terminology and concepts."
    else
      "Only " ++ toString s.matchedKeywords.length ++
        " relevant term(s) detected. Use more domain-specific vocabulary and reference concrete concepts."
  | .completeness =>
    if s.wordCount < 15 then
      "Your response is too brief. Expand with at least 3–5 sentences covering different aspects of the question."
    else
      "Your answer covers limited ground. Address multiple facets and include specific examples to demonstrate depth."
  | .confidence =>
    if 3 < s.fillerCount then
      "Multiple hesitation phrases detected (\x27" ++
        joinSep "\x27, \x27" (s.fillerWordsFound.take 3) ++
        "\x27). Practice delivering answers with direct, assertive language."
    else
      "The response conveys uncertainty. Use definitive statements like \x27I achieved...\x27 or \x27I built...\x27 to project confidence."

/-- `_suggestion_medium(dimension, signals)`: medium-score suggestions (4-6). -/
def suggestion_medium (dimension : Dim) (s : Signals) : String :=
  match dimension with
  | .clarity =>
    if s.sentenceCount < 3 then
      "Your answer is reasonably clear but could benefit from additional sentences to fully develop your point."
    else
      "Good clarity foundation. Ensure each sentence transitions smoothly to the next for a cohesive narrative."
  | .accuracy =>
    "You referenced " ++ toString s.matchedKeywords.length ++ " of " ++
      toString s.totalKeywords ++
      " expected concepts. Mentioning more domain-specific terms would elevate accuracy."
  | .completeness =>
    if s.hasExamples = false then
      "Solid answer overall. Adding a concrete example or use case would make it more complete and convincing."
    else
      "Good detail level. Consider expanding on additional angles or trade-offs to demonstrate comprehensive understanding."
  | .confidence =>
    if 0 < s.fillerCount then
      "Your answer is confident overall, but reducing hesitation phrases like \x27" ++
        s.fillerWordsFound.headD "" ++ "\x27 would strengthen delivery."
    else
      "Confident tone detected. Adding a personal achievement statement would further reinforce self-assurance."

/-- `_suggestion_high(dimension, signals)`: high-score suggestions (7-10). -/
def suggestion_high (dimension : Dim) (s : Signals) : String :=
  match dimension with
  | .clarity =>
    "Excellent clarity! Well-structured and easy to follow. To reach the next level, consider using transition phrases between ideas."
  | .accuracy =>
    "Strong technical accuracy with " ++ toString s.matchedKeywords.length ++
      " relevant concepts. For even greater impact, relate concepts to real-world applications."
  | .completeness =>
    if s.hasExamples = true then
      "Very thorough response with examples included. Exceptional completeness — maintain this standard across all answers."
    else
      "Comprehensive answer. Adding a brief example would make it truly outstanding."
  | .confidence =>
    if s.assertiveFound ≠ [] then
      "Highly confident delivery with assertive language. This projects professionalism — keep this approach."
    else
      "Strong confident tone. Consider adding quantified achievements to amplify impact."

/-- `generate_suggestion(score, dimension, signals)`: tiered actionable
advice (low/medium/high by score range). -/
def generate_suggestion (score : ℚ) (dimension : Dim) (s : Signals) : Suggestion :=
  if score ≤ 3 then
    { level := "low", icon := "⚠️", text := suggestion_low dimension s
      score := score, dimension := dimLabel dimension }
  else if score ≤ 6 then
    { level := "medium", icon := "💡", text := suggestion_medium dimension s
      score := score, dimension := dimLabel dimension }
  else
    { level := "high", icon := "✅", text := suggestion_high dimension s
      score := score, dimension := dimLabel dimension }

/-- The icon tag keyed to a suggestion level: low → warning sign,
medium → tip (light bulb), high → check mark. -/
def iconForLevel (level : String) : String :=
  if level = "low" then "⚠️" else if level = "medium" then "💡" else "✅"

/-- C4: a suggestion's level is `low` iff score ≤ 3, `medium` iff
3 < score ≤ 6, `high` iff score > 6, for every possible score, and the
icon is determined by the level (low→warning, medium→tip, high→check). -/
theorem C4_suggestion_levels (score : ℚ) (dimension : Dim) (s : Signals) :
    ((generate_suggestion score dimension s).level = "low" ↔ score ≤ 3) ∧
    ((generate_suggestion score dimension s).level = "medium" ↔ (3 < score ∧ score ≤ 6)) ∧
    ((generate_suggestion score dimension s).level = "high" ↔ 6 < score) ∧
    (generate_suggestion score dimension s).icon =
      iconForLevel (generate_suggestion score dimension s).level := by
  unfold generate_suggestion
  split_ifs with h1 h2
  · refine ⟨iff_of_true rfl h1,
      iff_of_false (fun h => absurd (show ("low" : String) = "medium" from h) (by decide)) ?_,
      iff_of_false (fun h => absurd (show ("low" : String) = "high" from h) (by decide)) ?_, rfl⟩
    · exact fun h => absurd h.1 (not_lt.mpr h1)
    · exact not_lt.mpr (le_trans h1 (by norm_num))
  · exact ⟨iff_of_false (fun h => absurd (show ("medium" : String) = "low" from h) (by decide)) h1,
      iff_of_true rfl ⟨not_le.mp h1, h2⟩,
      iff_of_false (fun h => absurd (show ("medium" : String) = "high" from h) (by decide))
        (not_lt.mpr h2), rfl⟩
  · refine ⟨iff_of_false (fun h => absurd (show ("high" : String) = "low" from h) (by decide)) h1,
      iff_of_false (fun h => absurd (show ("high" : String) = "medium" from h) (by decide)) ?_,
      iff_of_true rfl (not_le.mp h2), rfl⟩
    · exact fun h => absurd h.2 h2

/-- C9: whenever `isGibberish` is true, the explanation's evidence list
is exactly the two entries "non-meaningful content detected" and
"only N% recognizable words" with N = round(realWordRatio*100) — in
particular it is non-empty — and the text is the fixed nonsensical-answer
message, independent of the dimension. -/
theorem C9_gibberish_explanation (dimension : Dim) (score : ℚ) (s : Signals)
    (h : s.isGibberish = true) :
    (generate_explanation dimension score s).signalsDetected =
        ["non-meaningful content detected",
         "only " ++ toString (pyRound (s.realWordRatio * 100)) ++ "% recognizable words"] ∧
      (generate_explanation dimension score s).text =
        "Response appears to be nonsensical or gibberish. Please provide a meaningful answer." ∧
      (generate_explanation dimension score s).signalsDetected ≠ [] := by
  unfold generate_explanation
  rw [if_pos h]
  exact ⟨rfl, rfl, List.cons_ne_nil _ _⟩

theorem C9_gibberish_explanation_witness :
    gibSignals.isGibberish = true ∧
      ((generate_explanation Dim.accuracy 0 gibSignals).signalsDetected =
          ["non-meaningful content detected",
           "only " ++ toString (pyRound (gibSignals.realWordRatio * 100)) ++
             "% recognizable words"] ∧
        (generate_explanation Dim.accuracy 0 gibSignals).text =
          "Response appears to be nonsensical or gibberish. Please provide a meaningful answer." ∧
        (generate_explanation Dim.accuracy 0 gibSignals).signalsDetected ≠ []) :=
  ⟨rfl, C9_gibberish_explanation Dim.accuracy 0 gibSignals rfl⟩

/-! ## Aggregation engine -/

/-- The readiness badge returned by `get_readiness_indicator`. -/
structure Readiness where
  label : String
  level : String
  description : String
  className : String
deriving DecidableEq, Repr

/-- `get_readiness_indicator(overall)`. -/
def get_readiness_indicator (overall : ℚ) : Readiness :=
  if 7.5 ≤ overall then
    { label := "Strong Candidate", level := "high"
      description := "Demonstrates excellent interview skills across all dimensions."
      className := "readiness-high" }
  else if 5 ≤ overall then
    { label := "Interview Ready", level := "medium"
      description := "Solid performance with room for targeted improvement."
      className := "readiness-medium" }
  else
    { label := "Needs Preparation", level := "low"
      description := "Additional practice recommended before proceeding to interviews."
      className := "readiness-low" }

/-- One evaluated answer as stored in a session by the evaluate route.
(The stored record also carries the per-answer explanation and suggestion
payloads, which the aggregation engine never reads; they are omitted
here.) -/
structure AnswerEntry where
  questionId : Nat
  question : QuestionSpec
  answer : String
  scores : Scores
  signals : Signals
deriving DecidableEq, Repr

/-- Dimension-keyed access to a `Scores` record (the score dictionary). -/
def Scores.get (sc : Scores) : Dim → ℚ
  | .clarity => sc.clarity
  | .accuracy => sc.accuracy
  | .completeness => sc.completeness
  | .confidence => sc.confidence

/-- The iteration order of the `avg` dictionary: insertion order of the
`totals` dictionary in the source. -/
def dimOrder : List Dim := [.clarity, .accuracy, .completeness, .confidence]

/-- Python's `min(avg, key=avg.get)`: the first dimension (in dictionary
order) attaining the minimum average. -/
def argminDim (f : Dim → ℚ) : Dim :=
  dimOrder.tail.foldl (fun best d => if f d < f best then d else best) Dim.clarity

/-- Python's `max(avg, key=avg.get)`: the first dimension (in dictionary
order) attaining the maximum average. -/
def argmaxDim (f : Dim → ℚ) : Dim :=
  dimOrder.tail.foldl (fun best d => if f best < f d then d else best) Dim.clarity

/-- `_strength_note(key, score)`. -/
def strength_note (key : Dim) (score : ℚ) : String :=
  match key with
  | .clarity =>
    if 7 ≤ score then "Responses are well-structured and easy to follow."
    else "Answers show reasonable clarity in communication."
  | .accuracy =>
    if 7 ≤ score then "Demonstrates strong domain knowledge with relevant terminology."
    else "Shows adequate understanding of technical concepts."
  | .completeness =>
    if 7 ≤ score then "Provides thorough, multi-faceted responses with supporting detail."
    else "Covers the essential points in each answer."
  | .confidence =>
    if 7 ≤ score then "Communicates with conviction and assertive, professional language."
    else "Maintains a generally confident tone throughout."

/-- `_improvement_note(key, score)`. -/
def improvement_note (key : Dim) (score : ℚ) : String :=
  match key with
  | .clarity =>
    if score < 4 then "Needs significantly more structure — practice organizing thoughts before responding."
    else "Could benefit from more polished sentence transitions and flow."
  | .accuracy =>
    if score < 4 then "Technical vocabulary is lacking — review core concepts for the target role."
    else "Incorporating more specific terms and concepts would strengthen responses."
  | .completeness =>
    if score < 4 then "Answers are too brief — practice expanding with examples and multiple perspectives."
    else "Adding concrete examples and covering more angles would improve depth."
  | .confidence =>
    if score < 4 then "Excessive use of hedging language — practice direct, assertive phrasing."
    else "Minor hesitation phrases can be eliminated for a more polished delivery."

/-- Remediation tip for the weakest dimension (the `step_map` table). -/
def step_map : Dim → String
  | .clarity => "Practice the STAR method (Situation, Task, Action, Result) to structure answers more clearly."
  | .accuracy => "Review key technical concepts for your target role and practice using specific terminology."
  | .completeness => "Before answering, mentally outline 2–3 points to cover, then expand each with detail."
  | .confidence => "Record yourself answering practice questions and identify filler words to eliminate."

/-- Reinforcement tip for the strongest dimension (the `reinforce_map` table). -/
def reinforce_map : Dim → String
  | .clarity => "Your communication clarity is a strength — leverage it in presentations and demos."
  | .accuracy => "Your technical knowledge is solid — consider deepening into specialized areas."
  | .completeness => "Your thoroughness stands out — channel this skill into technical documentation."
  | .confidence => "Your confident delivery is impressive — consider mentoring peers on interview prep."

/-- The short-average-length observation (second next step, first template). -/
def avg_words_msg (w : ℤ) : String :=
  "Your average response length is " ++ toString w ++
    " words. Aim for 50–100 words per answer for more thorough coverage."

/-- The no-examples observation (second next step, second template). -/
def no_examples_msg : String :=
  "None of your answers included specific examples. Practice incorporating real experiences to make responses more compelling."

/-- The generic keep-practicing observation (second next step, third template). -/
def keep_practicing_msg : String :=
  "Continue preparing with mock interviews to build consistency across all dimensions."

/-- `_generate_next_steps(avg, answers_data)`. -/
def generate_next_steps (avg : Scores) (answers_data : List AnswerEntry) : List String :=
  let weakest := argminDim avg.get
  let total_words := (answers_data.map (fun e => e.signals.wordCount)).sum
  let avg_words := pyRound ((total_words : ℚ) / (answers_data.length : ℚ))
  let has_any_examples := answers_data.any (fun e => e.signals.hasExamples)
  let step2 :=
    if avg_words < 40 then avg_words_msg avg_words
    else if has_any_examples = false then no_examples_msg
    else keep_practicing_msg
  let strongest := argmaxDim avg.get
  [step_map weakest, step2, reinforce_map strongest]

/-- A strength or improvement-area item of the insight summary. -/
structure InsightItem where
  name : String
  score : ℚ
  note : String
deriving DecidableEq, Repr

/-- An entry of the sortable dimension list in `compute_overall_insights`. -/
structure DimEntry where
  name : String
  key : Dim
  score : ℚ
deriving DecidableEq, Repr

/-- The full interview insight summary. -/
structure Insights where
  overall : ℚ
  averages : Scores
  strengths : List InsightItem
  improvements : List InsightItem
  nextSteps : List String
  readiness : Readiness
deriving DecidableEq, Repr

/-- `compute_overall_insights(answers_data)`: `none` models the source's
`return None` on an empty sequence (the spec's `EmptyInputError`). -/
def compute_overall_insights (answers_data : List AnswerEntry) : Option Insights :=
  if answers_data = [] then none
  else
    let count : ℚ := (answers_data.length : ℚ)
    let avg : Scores :=
      { clarity := roundTo1 ((answers_data.map (fun e => e.scores.clarity)).sum / count)
        accuracy := roundTo1 ((answers_data.map (fun e => e.scores.accuracy)).sum / count)
        completeness := roundTo1 ((answers_data.map (fun e => e.scores.completeness)).sum / count)
        confidence := roundTo1 ((answers_data.map (fun e => e.scores.confidence)).sum / count) }
    let overall := roundTo1 ((avg.clarity + avg.accuracy + avg.completeness + avg.confidence) / 4)
    let dim_list : List DimEntry :=
      [{ name := "Clarity", key := .clarity, score := avg.clarity },
       { name := "Technical Accuracy", key := .accuracy, score := avg.accuracy },
       { name := "Completeness", key := .completeness, score := avg.completeness },
       { name := "Confidence", key := .confidence, score := avg.confidence }]
    let sorted := dim_list.insertionSort (fun a b => b.score ≤ a.score)
    let strengths := (sorted.take 2).filterMap (fun d =>
      if 5 ≤ d.score then
        some { name := d.name, score := d.score, note := strength_note d.key d.score }
      else none)
    let improvements := (sorted.drop (sorted.length - 2)).filterMap (fun d =>
      if d.score < 8 then
        some { name := d.name, score := d.score, note := improvement_note d.key d.score }
      else none)
    some { overall := overall
           averages := avg
           strengths := strengths
           improvements := improvements
           nextSteps := generate_next_steps avg answers_data
           readiness := get_readiness_indicator overall }

/-! ## Session store and routes -/

/-- A per-session record of the in-memory store. -/
structure Session where
  answers : List AnswerEntry
  user : Option String
deriving DecidableEq, Repr

/-- The in-memory keyed session store (`sessions` dictionary). -/
def SessionStore : Type := String → Option Session

/-- The initial empty store. -/
def sessionsInit : SessionStore := fun _ => none

/-- `/api/reset`: reset a session for a new interview. -/
def reset_session (store : SessionStore) (sessionId : String) : SessionStore :=
  fun k => if k = sessionId then some { answers := [], user := none } else store k

/-- The error surfaced as the 404 response "No interview data found for
this session" (session missing or its answer sequence empty) — the spec's
`EmptyInputError` for aggregation over zero answers. -/
inductive ReportError
  | emptyInput
deriving DecidableEq, Repr

/-- One per-question entry of the final report's `responses` list. -/
structure ResponseItem where
  questionId : Nat
  category : String
  question : String
  answer : String
  scores : Scores
deriving DecidableEq, Repr

/-- The final interview report (static banner fields, the timestamp and
the interviewer passthrough are omitted). -/
structure Report where
  overallScore : ℚ
  dimensionAverages : Scores
  readinessIndicator : Readiness
  strengths : List InsightItem
  improvementAreas : List InsightItem
  actionableNextSteps : List String
  responses : List ResponseItem
deriving DecidableEq, Repr

/-- `/api/final-report`: generate the final interview report, failing when
the session has no answer data. -/
def final_report (store : SessionStore) (sessionId : String) : Except ReportError Report :=
  match store sessionId with
  | none => .error .emptyInput
  | some sess =>
    if sess.answers = [] then .error .emptyInput
    else
      match compute_overall_insights sess.answers with
      | none => .error .emptyInput
      | some insights =>
        .ok { overallScore := insights.overall
              dimensionAverages := insights.averages
              readinessIndicator := insights.readiness
              strengths := insights.strengths
              improvementAreas := insights.improvements
              actionableNextSteps := insights.nextSteps
              responses := sess.answers.map (fun e =>
                { questionId := e.questionId, category := e.question.category
                  question := e.question.text, answer := e.answer, scores := e.scores }) }

/-- C5: the aggregation engine produces no insights exactly when the
input sequence of answer results is empty (the `return None` that the
HTTP layer surfaces as the no-interview-data failure, the spec's
`EmptyInputError`). -/
theorem C5_empty_aggregation (answers_data : List AnswerEntry) :
    compute_overall_insights answers_data = none ↔ answers_data = [] := by
  unfold compute_overall_insights
  split_ifs with h
  · simp [h]
  · simp [h]

/-- C6: after a reset, the session's answer sequence is empty, and a
final-report (aggregation) call on that session immediately afterwards
fails with the empty-input error. -/
theorem C6_reset_then_report (store : SessionStore) (sessionId : String) :
    (reset_session store sessionId) sessionId = some { answers := [], user := none } ∧
      final_report (reset_session store sessionId) sessionId = .error .emptyInput := by
  constructor
  · unfold reset_session
    simp
  · unfold final_report reset_session
    simp

/-- Concrete non-gibberish signals with a given word count, no examples. -/
def ceSig (wc : Nat) : Signals :=
  { wordCount := wc, sentenceCount := 3, uniqueRatio := 0.9, matchedKeywords := []
    totalKeywords := 17, keywordMatchRatio := 0.1, fillerWordsFound := []
    fillerCount := 0, assertiveFound := [], hasExamples := false
    startsWithCapital := true, avgSentenceLen := 13, realWordRatio := 0.9
    isGibberish := false }

/-- A concrete question record for sample answer entries. -/
def ceQuestion : QuestionSpec :=
  { id := 1, text := "Tell us about yourself and your most relevant experience for this role."
    keywords := ["experience", "skills"], category := "Introduction" }

/-- A concrete answer entry with the given word count and flat 5.0 scores. -/
def ceEntry (wc : Nat) : AnswerEntry :=
  { questionId := 1, question := ceQuestion, answer := "sample answer"
    scores := { clarity := 5, accuracy := 5, completeness := 5, confidence := 5 }
    signals := ceSig wc }

/-- Two answers of 39 and 40 words: the mean word count is 39.5. -/
def ceAnswers : List AnswerEntry := [ceEntry 39, ceEntry 40]

/-- The flat average-score record of `ceAnswers`. -/
def ceAvg : Scores := { clarity := 5, accuracy := 5, completeness := 5, confidence := 5 }

/-- C8 counterexample: on two answers of 39 and 40 words with no examples
anywhere, the mean word count is 39.5 < 40, yet the second next-step
string is the no-examples observation, not the short-length observation —
the code tests the rounded mean (`round(39.5) = 40`), not the mean
itself. -/
theorem C8_counterexample :
    ((ceAnswers.map (fun e => (e.signals.wordCount : ℚ))).sum / (ceAnswers.length : ℚ) < 40) ∧
    generate_next_steps ceAvg ceAnswers =
      [step_map (argminDim ceAvg.get), no_examples_msg, reinforce_map (argmaxDim ceAvg.get)] ∧
    no_examples_msg ≠ avg_words_msg 39 ∧ no_examples_msg ≠ avg_words_msg 40 := by
  have hsum : (ceAnswers.map (fun e => (e.signals.wordCount : ℚ))).sum = 79 := by
    norm_num [ceAnswers, ceEntry, ceSig]
  have hlen : ((ceAnswers.length : ℚ)) = 2 := by norm_num [ceAnswers]
  refine ⟨?_, ?_, ?_, ?_⟩
  · rw [hsum, hlen]
    norm_num
  · simp only [generate_next_steps]
    rw [if_neg ?_, if_pos ?_]
    · simp only [ceAnswers, ceEntry, ceSig, List.any_cons, List.any_nil, Bool.or_false]
    · rw [hsum, hlen]
      norm_num [pyRound]
  · decide
  · decide

/-- C8 (amended): for every non-empty answer sequence, the next-steps
output is exactly 3 ordered strings — the remediation tip keyed to the
weakest average dimension; then a length/example observation chosen by
three mutually exclusive conditions (the mean word count **rounded
half-to-even to the nearest integer** is < 40; otherwise no answer has
examples; otherwise a generic keep-practicing message); then the
reinforcement tip keyed to the strongest average dimension. -/
theorem C8_next_steps_structure (avg : Scores) (answers_data : List AnswerEntry)
    (_h : answers_data ≠ []) :
    generate_next_steps avg answers_data =
      [step_map (argminDim avg.get),
       (if pyRound (((answers_data.map (fun e => e.signals.wordCount)).sum : ℚ) /
            (answers_data.length : ℚ)) < 40 then
          avg_words_msg (pyRound (((answers_data.map (fun e => e.signals.wordCount)).sum : ℚ) /
            (answers_data.length : ℚ)))
        else if ∀ e ∈ answers_data, e.signals.hasExamples = false then no_examples_msg
        else keep_practicing_msg),
       reinforce_map (argmaxDim avg.get)] ∧
    (generate_next_steps avg answers_data).length = 3 := by
  constructor
  · simp only [generate_next_steps]
    have hmid :
        (if (answers_data.any fun e => e.signals.hasExamples) = false then no_examples_msg
         else keep_practicing_msg) =
        (if ∀ e ∈ answers_data, e.signals.hasExamples = false then no_examples_msg
         else keep_practicing_msg) := by
      by_cases h2 : ∀ e ∈ answers_data, e.signals.hasExamples = false
      · rw [if_pos ?_, if_pos h2]
        simp only [List.any_eq_false]
        intro e he
        simp [h2 e he]
      · rw [if_neg ?_, if_neg h2]
        simp only [List.any_eq_false]
        intro hall
        exact h2 fun e he => by simpa using hall e he
    rw [hmid]
  · rfl

/-- A concrete answer entry of 50 words with an example phrase. -/
def wEntry : AnswerEntry :=
  { questionId := 1, question := ceQuestion, answer := "a longer sample answer"
    scores := { clarity := 4, accuracy := 6, completeness := 7, confidence := 5 }
    signals :=
      { wordCount := 50, sentenceCount := 4, uniqueRatio := 0.85, matchedKeywords := ["skills"]
        totalKeywords := 2, keywordMatchRatio := 0.5, fillerWordsFound := []
        fillerCount := 0, assertiveFound := ["i have"], hasExamples := true
        startsWithCapital := true, avgSentenceLen := 13, realWordRatio := 0.92
        isGibberish := false } }

/-- A one-element answer sequence for the next-steps witness. -/
def wAnswers : List AnswerEntry := [wEntry]

/-- The average-score record matching `wAnswers`. -/
def wAvg : Scores := { clarity := 4, accuracy := 6, completeness := 7, confidence := 5 }

theorem C8_next_steps_structure_witness :
    wAnswers ≠ [] ∧
      (generate_next_steps wAvg wAnswers =
        [step_map (argminDim wAvg.get),
         (if pyRound (((wAnswers.map (fun e => e.signals.wordCount)).sum : ℚ) /
              (wAnswers.length : ℚ)) < 40 then
            avg_words_msg (pyRound (((wAnswers.map (fun e => e.signals.wordCount)).sum : ℚ) /
              (wAnswers.length : ℚ)))
          else if ∀ e ∈ wAnswers, e.signals.hasExamples = false then no_examples_msg
          else keep_practicing_msg),
         reinforce_map (argmaxDim wAvg.get)] ∧
      (generate_next_steps wAvg wAnswers).length = 3) :=
  ⟨by simp [wAnswers], C8_next_steps_structure wAvg wAnswers (by simp [wAnswers])⟩

/-- Case-insensitive whole-word/phrase occurrence count of a phrase in an
answer: non-overlapping word-boundary matches of the lowercased phrase in
the lowercased answer. -/
def ciCount (phrase : String) (answer : String) : Nat :=
  countOcc (phrase.toList.map Char.toLower) none (answer.toList.map Char.toLower)

theorem fillerLoop_spec (la : List Char) :
    ∀ fs : List String,
      fillerLoop la fs =
        ((fs.map (fun f => countOcc f.toList none la)).sum,
         fs.filter (fun f => decide (0 < countOcc f.toList none la))) := by
  intro fs
  induction fs with
  | nil => rfl
  | cons f rest ih =>
    simp only [fillerLoop, ih, List.map_cons, List.sum_cons, List.filter_cons, String.toList]
    by_cases hn : 0 < countOcc f.data none la
    · simp [hn]
    · have h0 : countOcc f.data none la = 0 := by omega
      simp [hn, h0]

/-- C7: `fillerCount` is the total number of whole-word/phrase
case-insensitive occurrences of the fixed filler list's entries, and
`fillerWordsFound` is exactly the distinct filler phrases with at least
one occurrence, in the list's canonical order (the filler list has no
duplicates, and `List.filter` preserves its order). -/
theorem C7_filler_detection (answer : String) (question : QuestionSpec) :
    (detect_signals answer question).fillerCount =
        (FILLER_WORDS.map (fun f => ciCount f answer)).sum ∧
      (detect_signals answer question).fillerWordsFound =
        FILLER_WORDS.filter (fun f => decide (0 < ciCount f answer)) ∧
      FILLER_WORDS.Nodup := by
  have hft : (detect_signals answer question).fillerCount =
      (fillerLoop (answer.toList.map Char.toLower) FILLER_WORDS).1 := rfl
  have hff : (detect_signals answer question).fillerWordsFound =
      (fillerLoop (answer.toList.map Char.toLower) FILLER_WORDS).2 := rfl
  have hlow : ∀ f ∈ FILLER_WORDS, f.toList.map Char.toLower = f.toList := by decide
  have hpt : ∀ f ∈ FILLER_WORDS,
      ciCount f answer = countOcc f.toList none (answer.toList.map Char.toLower) := by
    intro f hf
    unfold ciCount
    rw [hlow f hf]
  refine ⟨?_, ?_, by decide⟩
  · rw [hft, fillerLoop_spec]
    exact congrArg List.sum (List.map_congr_left fun f hf => (hpt f hf).symm)
  · rw [hff, fillerLoop_spec]
    exact List.filter_congr fun f hf => by rw [hpt f hf]

/-- A question whose keyword set is empty. -/
def emptyKwQuestion : QuestionSpec :=
  { id := 99, text := "A question with no keywords.", keywords := [], category := "Misc" }

/-- C10: for every answer text and every question whose keyword set is
empty, the extractor returns `keywordMatchRatio = 0` (the
matched/total division is guarded by the emptiness test and never
performed with a zero divisor). -/
theorem C10_empty_keywords (answer : String) (question : QuestionSpec)
    (h : question.keywords = []) :
    (detect_signals answer question).keywordMatchRatio = 0 := by
  simp only [detect_signals]
  exact if_neg (fun hne => hne h)

theorem C10_empty_keywords_witness :
    emptyKwQuestion.keywords = [] ∧
      (detect_signals "I built a project with my team." emptyKwQuestion).keywordMatchRatio = 0 :=
  ⟨rfl, C10_empty_keywords "I built a project with my team." emptyKwQuestion rfl⟩

end Selectra
